import Mathlib

/-!
Verification of the parallel downloader core of kinopub-downloader
(src/parallel_downloader/mod.rs), shallowly embedded in Lean.

Conventions of the embedding:
* Byte counts and offsets are natural numbers (the Rust code uses u64; none of
  the verified operations can overflow 64 bits for realistic file sizes, and the
  source performs no wrapping arithmetic).
* A planned range is a pair (start, end).  The code sends it as the HTTP header
  value formatted from the template bytes=start-end, which in HTTP denotes the
  INCLUSIVE byte interval from start to end.
* Network and file-system interactions are abstracted into explicit inputs
  (response headers, stream chunks, completion-ordered task results) and an
  explicit trace of observable events.
-/

namespace KinopubDownloader

/-- Observable actions performed by Downloader.download_to and its spawned
segment tasks, in program order. -/
inductive Event where
  | headRequest : Event
  | progressSetup : Event
  | segmentRequest : ℕ → ℕ → Event
  | fileCreate : Event
  | write : ℕ → List ℕ → Event
  | progressInc : ℕ → Event
  | progressFinishAndClear : Event
  | panic : String → Event
deriving DecidableEq

/-- Result of a run of Downloader.download_to.  The Rust function returns
anyhow Result; a division by zero in Rust is a panic, which we keep distinct
from an error return. -/
inductive Outcome where
  | success : Outcome
  | failure : String → Outcome
  | panicked : String → Outcome
deriving DecidableEq

/-- The while-loop in Downloader.download_to that plans the byte ranges:

    let mut start = 0;
    while start < total_size \x7b
        ranges.push((start, (start + chunk_size).min(total_size)));
        start += chunk_size + 1;
    \x7d

modelled as a recursive function of the loop variable. -/
def plan_loop (total_size chunk_size : ℕ) (start : ℕ) : List (ℕ × ℕ) :=
  if h : start < total_size then
    (start, min (start + chunk_size) total_size) :: plan_loop total_size chunk_size (start + chunk_size + 1)
  else
    []
termination_by total_size - start
decreasing_by omega

/-- The full planning step of Downloader.download_to:
chunk_size = total_size / threads, then the planning loop from start = 0.
Meaningful only for threads ≥ 1: in Rust, division by zero panics (the model of
download_to below treats threads = 0 separately). -/
def plan_ranges (total_size threads : ℕ) : List (ℕ × ℕ) :=
  plan_loop total_size (total_size / threads) 0

/-- Membership of a byte index in the union of a list of planned ranges, each
range read as the inclusive interval its bytes=start-end header denotes. -/
def in_ranges (rs : List (ℕ × ℕ)) (b : ℕ) : Bool :=
  rs.any fun r => decide (r.1 ≤ b) && decide (b ≤ r.2)

/-- One HTTP response consumed by a spawned segment task: its status code
(200 full content, 206 partial content — the task never inspects it) and the
chunks its body stream yields, each chunk a list of bytes. -/
structure SegmentResponse where
  status : ℕ
  chunks : List (List ℕ)
deriving DecidableEq

/-- The while-let loop over the byte stream inside a spawned segment task of
download_to: each chunk is written at the running offset (seek then write_all
under the shared file lock), the offset advances by the chunk length, and the
progress bar is incremented by the chunk length. -/
def segment_loop (offset : ℕ) : List (List ℕ) → List Event
  | [] => []
  | chunk :: rest =>
      Event.write offset chunk :: Event.progressInc chunk.length ::
        segment_loop (offset + chunk.length) rest

/-- A whole spawned segment task: one GET carrying the header value formatted
from bytes=start-end, then the streaming loop from offset = start.  The
response status is not examined anywhere in the task body. -/
def fetch_segment (start stop : ℕ) (resp : SegmentResponse) : List Event :=
  Event.segmentRequest start stop :: segment_loop start resp.chunks

/-- The file writes contained in a trace, in order. -/
def write_events : List Event → List (ℕ × List ℕ)
  | [] => []
  | Event.write o c :: rest => (o, c) :: write_events rest
  | _ :: rest => write_events rest

/-- Models futures::future::try_join_all over the Vec of spawned JoinHandles.
A tokio JoinHandle of a task returning Result resolves at two levels: the
outer level errs only with a JoinError (the task panicked or was aborted),
while a task that merely returns its own inner Err resolves the handle
successfully, carrying that inner Result as its Ok value.  try_join_all
therefore short-circuits only on a JoinError; otherwise it awaits every
handle and yields the vector of inner segment Results.  The argument lists
the handle resolutions in task completion order; the second component counts
the completions awaited before resolving. -/
def try_join_all : List (Except String (Except String Unit)) →
    Except String (List (Except String Unit)) × ℕ
  | [] => (Except.ok [], 0)
  | Except.ok r :: rest =>
      match try_join_all rest with
      | (Except.ok rs, n) => (Except.ok (r :: rs), n + 1)
      | (Except.error e, n) => (Except.error e, n + 1)
  | Except.error e :: _ => (Except.error e, 1)

/-- Models str::parse::<u64> as applied to the Content-Length header value:
an optional leading plus sign followed by a nonempty all-digit sequence
parses; anything else is a parse error (u64 overflow is out of scope for
realistic content lengths). -/
def parse_u64 (s : String) : Option ℕ :=
  let digits := if s.data.head? = some ('+') then s.data.tail else s.data
  if digits ≠ [] ∧ digits.all (fun c => c.isDigit) then
    some (digits.foldl (fun n c => n * 10 + (c.toNat - 48)) 0)
  else none

/-- Downloader.is_accept_ranges: the Accept-Ranges header of a HEAD response
is tested with matches!(header, Some(value) if value == "bytes"). -/
def is_accept_ranges (header : Option String) : Bool :=
  match header with
  | some value => value == "bytes"
  | none => false

/-- External inputs of one download_to run: the headers of the HEAD responses
(the code probes the same url twice, once for Content-Length and once for
Accept-Ranges), whether File::create succeeds, and the resolutions of the
spawned JoinHandles in the order the tasks complete: an outer error is a
JoinError (task panic or abort); a task that returns normally resolves Ok
carrying the segment's own inner Result, even when that inner Result is an
Err. -/
structure Env where
  contentLength : Option String
  acceptRanges : Option String
  fileCreateOk : Bool
  segmentResults : List (Except String (Except String Unit))

/-- Downloader.download_to as a trace of observable actions plus an outcome,
following the source order: HEAD for Content-Length (missing or unparsable
header is an early error return), progress-bar setup, the is_accept_ranges
HEAD probe (unsupported is an error return), the chunk-size division (a Rust
u64 division, which panics when threads = 0), range planning, File::create,
spawning one ranged GET per planned range, try_join_all over the handles, and
progress.finish_and_clear on the success path only.  The question-mark on
try_join_all propagates only a JoinError; when every handle resolves Ok the
vector of inner segment Results is discarded unexamined, so segment failures
do not fail the run.  Error message strings are abbreviated from the source. -/
def download_to (env : Env) (threads : ℕ) : List Event × Outcome :=
  match env.contentLength with
  | none => ([Event.headRequest], Outcome.failure ("Failed to get content length"))
  | some raw =>
    match parse_u64 raw with
    | none => ([Event.headRequest], Outcome.failure ("invalid content length"))
    | some total_size =>
      if !(is_accept_ranges env.acceptRanges) then
        ([Event.headRequest, Event.progressSetup, Event.headRequest],
          Outcome.failure ("Server does not support RANGE header"))
      else if threads = 0 then
        ([Event.headRequest, Event.progressSetup, Event.headRequest,
          Event.panic ("attempt to divide by zero")],
          Outcome.panicked ("attempt to divide by zero"))
      else if env.fileCreateOk then
        match try_join_all env.segmentResults with
        | (Except.error e, _) =>
          ([Event.headRequest, Event.progressSetup, Event.headRequest, Event.fileCreate] ++
            (plan_ranges total_size threads).map (fun r => Event.segmentRequest r.1 r.2),
            Outcome.failure e)
        | (Except.ok _, _) =>
          ([Event.headRequest, Event.progressSetup, Event.headRequest, Event.fileCreate] ++
            (plan_ranges total_size threads).map (fun r => Event.segmentRequest r.1 r.2) ++
            [Event.progressFinishAndClear],
            Outcome.success)
      else
        ([Event.headRequest, Event.progressSetup, Event.headRequest],
          Outcome.failure ("failed to create destination file"))

end KinopubDownloader

namespace KinopubDownloader

theorem plan_loop_mem (total_size chunk_size start : ℕ) (r : ℕ × ℕ)
    (hr : r ∈ plan_loop total_size chunk_size start) :
    start ≤ r.1 ∧ r.1 < total_size ∧ r.2 = min (r.1 + chunk_size) total_size := by
  rw [plan_loop] at hr
  split at hr
  · rcases List.mem_cons.mp hr with h | h
    · subst h
      refine ⟨le_refl _, by omega, rfl⟩
    · have ih := plan_loop_mem total_size chunk_size (start + chunk_size + 1) r h
      exact ⟨by omega, ih.2.1, ih.2.2⟩
  · simp at hr
termination_by total_size - start
decreasing_by omega

theorem plan_loop_covers (total_size chunk_size start b : ℕ)
    (hb : start ≤ b) (hb2 : b < total_size) :
    in_ranges (plan_loop total_size chunk_size start) b = true := by
  rw [plan_loop]
  split
  · rename_i h
    by_cases hc : b ≤ min (start + chunk_size) total_size
    · simp only [in_ranges, List.any_cons, Bool.or_eq_true, Bool.and_eq_true, decide_eq_true_eq]
      exact Or.inl ⟨hb, hc⟩
    · have hstep : start + chunk_size + 1 ≤ b := by
        rcases le_total (start + chunk_size) total_size with hle | hle
        · rw [min_eq_left hle] at hc; omega
        · rw [min_eq_right hle] at hc; omega
      have ih := plan_loop_covers total_size chunk_size (start + chunk_size + 1) b hstep hb2
      simp only [in_ranges, List.any_cons, Bool.or_eq_true]
      exact Or.inr (by simpa [in_ranges] using ih)
  · omega
termination_by total_size - start
decreasing_by omega

theorem plan_loop_le_total (total_size chunk_size start b : ℕ)
    (h : in_ranges (plan_loop total_size chunk_size start) b = true) :
    b ≤ total_size := by
  simp only [in_ranges, List.any_eq_true, Bool.and_eq_true, decide_eq_true_eq] at h
  obtain ⟨r, hr, _, h2⟩ := h
  have hm := plan_loop_mem total_size chunk_size start r hr
  have : r.2 ≤ total_size := hm.2.2 ▸ min_le_right _ _
  omega

theorem plan_loop_pairwise (total_size chunk_size start : ℕ) :
    List.Pairwise (fun r r' : ℕ × ℕ => r.2 < r'.1) (plan_loop total_size chunk_size start) := by
  rw [plan_loop]
  split
  · refine List.Pairwise.cons ?_ (plan_loop_pairwise total_size chunk_size (start + chunk_size + 1))
    intro r' hr'
    have hm := plan_loop_mem total_size chunk_size (start + chunk_size + 1) r' hr'
    have h2 : min (start + chunk_size) total_size ≤ start + chunk_size := min_le_left _ _
    simp only []
    omega
  · exact List.Pairwise.nil
termination_by total_size - start
decreasing_by omega

theorem plan_loop_nil_iff (total_size chunk_size start : ℕ) :
    plan_loop total_size chunk_size start = [] ↔ ¬ start < total_size := by
  rw [plan_loop]
  split <;> simp_all

/-- C1 (amended): for worker_count ≥ 1, the planned ranges — read as the
inclusive byte intervals their bytes=start-end headers denote — are sorted by
start and pairwise non-overlapping (each range ends strictly before the next
begins), their union contains every byte of [0, total_size) and nothing beyond
index total_size, and the list is empty exactly when total_size = 0.  The union
is not exactly [0, total_size): when the last planned end reaches total_size,
the issued range also names the nonexistent byte index total_size (which an
HTTP server clamps away). -/
theorem plan_ranges_partition (total_size threads : ℕ) (_ht : 1 ≤ threads) :
    List.Pairwise (fun r r' : ℕ × ℕ => r.2 < r'.1) (plan_ranges total_size threads) ∧
    (∀ b, b < total_size → in_ranges (plan_ranges total_size threads) b = true) ∧
    (∀ b, in_ranges (plan_ranges total_size threads) b = true → b ≤ total_size) ∧
    (plan_ranges total_size threads = [] ↔ total_size = 0) := by
  refine ⟨plan_loop_pairwise _ _ _, ?_, ?_, ?_⟩
  · intro b hb
    exact plan_loop_covers total_size (total_size / threads) 0 b (Nat.zero_le _) hb
  · intro b hb
    exact plan_loop_le_total total_size (total_size / threads) 0 b hb
  · rw [plan_ranges, plan_loop_nil_iff]
    omega

/-- Witness for plan_ranges_partition at total_size = 6, threads = 3. -/
theorem plan_ranges_partition_witness :
    (1 : ℕ) ≤ 3 ∧ in_ranges (plan_ranges 6 3) 5 = true :=
  ⟨by decide, (plan_ranges_partition 6 3 (by decide)).2.1 5 (by decide)⟩

/-- Concrete run of the planner at total_size = 1000, threads = 4:
chunk_size = 250 and the loop steps by chunk_size + 1 = 251. -/
theorem plan_ranges_eval_1000_4 :
    plan_ranges 1000 4 = [(0, 250), (251, 501), (502, 752), (753, 1000)] := by
  have h : (1000 : ℕ) / 4 = 250 := by norm_num
  rw [plan_ranges, h]
  simp [plan_loop]

/-- C1 counterexample: at total_size = 1000, worker_count = 4 the union of the
planned ranges (inclusive, as issued in the bytes=start-end headers) contains
the byte index 1000, which is outside [0, 1000) — so the union is not exactly
[0, total_size). -/
theorem plan_ranges_union_counterexample :
    in_ranges (plan_ranges 1000 4) 1000 = true ∧ ¬ ((1000 : ℕ) < 1000) := by
  refine ⟨?_, by omega⟩
  rw [plan_ranges_eval_1000_4]
  decide

/-- C6 counterexample: at total_size = 1000, worker_count = 4 the planner does
not yield four ranges of length 250 covering [0,250), [250,500), [500,750),
[750,1000): the issued tuples differ from (0,250), (250,500), (500,750),
(750,1000), and their inclusive lengths are 251, 251, 251, 248 — not 250 each. -/
theorem plan_ranges_1000_4_counterexample :
    plan_ranges 1000 4 ≠ [(0, 250), (250, 500), (500, 750), (750, 1000)] ∧
    (plan_ranges 1000 4).map (fun r => r.2 + 1 - r.1) ≠ [250, 250, 250, 250] := by
  rw [plan_ranges_eval_1000_4]
  decide

theorem segment_loop_getElem (chunks : List (List ℕ)) :
    ∀ offset k, ∀ hk : k < chunks.length,
      (segment_loop offset chunks)[2 * k]? =
        some (Event.write (offset + ((chunks.take k).map List.length).sum) (chunks.get ⟨k, hk⟩)) ∧
      (segment_loop offset chunks)[2 * k + 1]? =
        some (Event.progressInc (chunks.get ⟨k, hk⟩).length) := by
  induction chunks with
  | nil => intro o k hk; simp at hk
  | cons c rest ih =>
    intro o k hk
    cases k with
    | zero => simp [segment_loop]
    | succ k =>
      have hk2 : k < rest.length := by simpa using hk
      obtain ⟨ihw, ihp⟩ := ih (o + c.length) k hk2
      have h2 : 2 * (k + 1) = 2 * k + 1 + 1 := by omega
      have hsum : o + (((c :: rest).take (k + 1)).map List.length).sum
          = o + c.length + ((rest.take k).map List.length).sum := by
        simp [List.take_succ_cons]
        omega
      have hget : (c :: rest).get ⟨k + 1, hk⟩ = rest.get ⟨k, hk2⟩ := rfl
      constructor
      · rw [h2, hsum, hget]
        simpa [segment_loop] using ihw
      · rw [h2, hget]
        simpa [segment_loop] using ihp

theorem write_events_segment_loop_mem (chunks : List (List ℕ)) :
    ∀ offset w, w ∈ write_events (segment_loop offset chunks) →
      offset ≤ w.1 ∧ w.1 + w.2.length ≤ offset + (chunks.map List.length).sum := by
  induction chunks with
  | nil => intro o w hw; simp [segment_loop, write_events] at hw
  | cons c rest ih =>
    intro o w hw
    simp only [segment_loop, write_events] at hw
    rcases List.mem_cons.mp hw with rfl | hw2
    · refine ⟨le_refl _, ?_⟩
      simp only [List.map_cons, List.sum_cons]
      omega
    · have := ih (o + c.length) w hw2
      simp only [List.map_cons, List.sum_cons]
      omega

theorem write_events_fetch (start stop : ℕ) (resp : SegmentResponse) :
    write_events (fetch_segment start stop resp) = write_events (segment_loop start resp.chunks) :=
  rfl

/-- C2 (amended): within a segment task, the k-th chunk received from the
stream is written at absolute offset start + (sum of the lengths of the
previous k chunks) and the write is immediately followed by a progress report
of exactly that chunk's length; the writes stay inside the assigned inclusive
range [start, stop] whenever the total number of received bytes is at most the
range's size stop + 1 - start.  That bound holds when the server honours the
requested range, but the task itself does not enforce it (see the C2
counterexample). -/
theorem segment_chunk_writes (start stop : ℕ) (resp : SegmentResponse) :
    (∀ k, ∀ hk : k < resp.chunks.length,
      (segment_loop start resp.chunks)[2 * k]? =
        some (Event.write (start + ((resp.chunks.take k).map List.length).sum)
          (resp.chunks.get ⟨k, hk⟩)) ∧
      (segment_loop start resp.chunks)[2 * k + 1]? =
        some (Event.progressInc (resp.chunks.get ⟨k, hk⟩).length)) ∧
    (start + (resp.chunks.map List.length).sum ≤ stop + 1 →
      ∀ w ∈ write_events (fetch_segment start stop resp),
        start ≤ w.1 ∧ w.1 + w.2.length ≤ stop + 1) := by
  constructor
  · intro k hk
    exact segment_loop_getElem resp.chunks start k hk
  · intro hbound w hw
    rw [write_events_fetch] at hw
    have := write_events_segment_loop_mem resp.chunks start w hw
    omega

/-- Witness for segment_chunk_writes at start = 0, stop = 1, with the stream
yielding the two one-byte chunks [7] and [8]. -/
theorem segment_chunk_writes_witness :
    (segment_loop 0 [[7], [8]])[2 * 1]? =
      some (Event.write (0 + (([[7], [8]].take 1).map List.length).sum)
        ([[7], [8]].get ⟨1, by decide⟩)) ∧
    (0 ≤ ((0, [7]) : ℕ × List ℕ).1 ∧
      ((0, [7]) : ℕ × List ℕ).1 + ((0, [7]) : ℕ × List ℕ).2.length ≤ 1 + 1) := by
  constructor
  · exact ((segment_chunk_writes 0 1 ⟨206, [[7], [8]]⟩).1 1 (by decide)).1
  · exact (segment_chunk_writes 0 1 ⟨206, [[7], [8]]⟩).2 (by decide) (0, [7]) (by decide)

/-- C2 counterexample: nothing in the task bounds the written bytes to the
assigned range.  A task assigned the one-byte inclusive range [0, 0] whose
stream yields the two-byte chunk [7, 8] writes byte index 1, outside its
range; the claim that no fetcher ever writes outside its own range depends on
the server honouring the request and is not enforced by the code. -/
theorem segment_out_of_range_counterexample :
    (0, [7, 8]) ∈ write_events (fetch_segment 0 0 ⟨206, [[7, 8]]⟩) ∧
    ¬ ((0 : ℕ) + ([7, 8] : List ℕ).length ≤ 0 + 1) := by
  decide

/-- C4 counterexample: a full-content (status 200) response to the ranged GET
is not detected by the task — it does not abort and writes the body bytes at
its range offset (write_events is nonempty, not empty as an aborting segment
would require). -/
theorem full_response_counterexample :
    write_events (fetch_segment 0 10 ⟨200, [[1, 2, 3]]⟩) = [(0, [1, 2, 3])] ∧
    write_events (fetch_segment 0 10 ⟨200, [[1, 2, 3]]⟩) ≠ [] := by
  decide

/-- C4 (amended): the segment task never inspects the response status — a
full-content (200) response is processed exactly like a partial-content (206)
one, and when its body is nonempty its bytes are written starting at the range
offset instead of the segment aborting with a protocol-violation error. -/
theorem segment_ignores_status (start stop s₁ s₂ : ℕ) (chunks : List (List ℕ))
    (hc : chunks ≠ []) :
    fetch_segment start stop ⟨s₁, chunks⟩ = fetch_segment start stop ⟨s₂, chunks⟩ ∧
    write_events (fetch_segment start stop ⟨200, chunks⟩) ≠ [] := by
  refine ⟨rfl, ?_⟩
  cases chunks with
  | nil => exact absurd rfl hc
  | cons c rest => simp [fetch_segment, segment_loop, write_events]

/-- Witness for segment_ignores_status with statuses 200 and 206 and a single
one-byte chunk. -/
theorem segment_ignores_status_witness :
    fetch_segment 0 10 ⟨200, [[1]]⟩ = fetch_segment 0 10 ⟨206, [[1]]⟩ ∧
    write_events (fetch_segment 0 10 ⟨200, [[1]]⟩) ≠ [] :=
  segment_ignores_status 0 10 200 206 [[1]] (by decide)

/-- C6 (amended): at total_size = 1000, worker_count = 4 the planner yields
exactly the four tuples (0,250), (251,501), (502,752), (753,1000); read as the
inclusive byte ranges of their bytes=start-end headers they span 251, 251, 251
and 248 byte indices (the last one naming the nonexistent index 1000, which an
HTTP server clamps, leaving 247 real bytes [753, 999]). -/
theorem plan_ranges_1000_4 :
    plan_ranges 1000 4 = [(0, 250), (251, 501), (502, 752), (753, 1000)] ∧
    (plan_ranges 1000 4).map (fun r => r.2 + 1 - r.1) = [251, 251, 251, 248] := by
  refine ⟨plan_ranges_eval_1000_4, ?_⟩
  rw [plan_ranges_eval_1000_4]
  decide

theorem try_join_all_all_ok (inner : List (Except String Unit)) :
    try_join_all (inner.map Except.ok) = (Except.ok inner, inner.length) := by
  induction inner with
  | nil => simp [try_join_all]
  | cons a rest ih => simp [try_join_all, ih]

/-- C3 counterexample: segment failures do not produce a failure return at
all.  The spawned tasks are JoinHandles, so a segment whose own Result is an
inner Err still resolves its handle successfully: with two failed segments
(range start 753 completing first, range start 0 second) try_join_all awaits
both completions (2 of 2) and resolves Ok, the vector of inner segment Results
is discarded at the call site, and download_to returns success — not a failure
carrying the lowest-range-start cause, nor any failure. -/
theorem segment_errors_swallowed_counterexample :
    (download_to ⟨some ("10"), some ("bytes"), true,
        [Except.ok (Except.error ("segment 753 failed")),
          Except.ok (Except.error ("segment 0 failed"))]⟩ 4).2 = Outcome.success ∧
    Outcome.success ≠ Outcome.failure ("segment 0 failed") ∧
    (try_join_all [Except.ok (Except.error ("segment 753 failed")),
        Except.ok (Except.error ("segment 0 failed"))]).2 = 2 := by
  exact ⟨by decide, by decide, by decide⟩

/-- C3 (amended): when segment fetchers fail by returning their own inner
Errs, the coordinator does wait for every in-flight fetcher (try_join_all
awaits all the JoinHandles, none of which errs at the outer level) and does
not cancel siblings — but it then returns success, silently discarding every
segment failure cause: no failure, first-encountered or lowest-range-start,
is propagated.  Only a JoinError (a task panic or abort) makes try_join_all
short-circuit and download_to return a failure. -/
theorem join_swallows_segment_failures (env : Env) (threads : ℕ) (raw : String)
    (n : ℕ) (inner : List (Except String Unit))
    (h1 : env.contentLength = some raw) (h2 : parse_u64 raw = some n)
    (h3 : is_accept_ranges env.acceptRanges = true) (h4 : ¬ threads = 0)
    (h5 : env.fileCreateOk = true)
    (h6 : env.segmentResults = inner.map Except.ok) :
    (try_join_all env.segmentResults).2 = inner.length ∧
    (download_to env threads).2 = Outcome.success := by
  have hj : try_join_all env.segmentResults = (Except.ok inner, inner.length) := by
    rw [h6]
    exact try_join_all_all_ok inner
  constructor
  · rw [hj]
  · simp [download_to, h1, h2, h3, h4, h5, hj]

/-- Witness for join_swallows_segment_failures: a single segment task whose
inner Result is an Err still yields an overall success. -/
theorem join_swallows_segment_failures_witness :
    (try_join_all [Except.ok (Except.error ("boom"))]).2 = 1 ∧
    (download_to ⟨some ("10"), some ("bytes"), true,
        [Except.ok (Except.error ("boom"))]⟩ 4).2 = Outcome.success := by
  have h := join_swallows_segment_failures
    ⟨some ("10"), some ("bytes"), true, [Except.ok (Except.error ("boom"))]⟩ 4
    ("10") 10 [Except.error ("boom")] rfl (by decide) (by decide) (by decide) rfl rfl
  simpa using h

/-- C7: is_accept_ranges is true exactly when the Accept-Ranges header is
present with the literal value bytes; any other value, and absence of the
header, give false. -/
theorem is_accept_ranges_iff (header : Option String) :
    is_accept_ranges header = true ↔ header = some ("bytes") := by
  cases header with
  | none => simp [is_accept_ranges]
  | some v => simp [is_accept_ranges]

/-- C5 counterexample: with worker_count = 0 and both probes succeeding,
download_to does not fail before any network call — its trace contains the
HEAD network calls, after which the chunk-size division total_size / 0 is
evaluated, which for a Rust u64 is a panic. -/
theorem zero_workers_counterexample :
    (download_to ⟨some ("1000"), some ("bytes"), true, []⟩ 0).2 =
      Outcome.panicked ("attempt to divide by zero") ∧
    Event.headRequest ∈ (download_to ⟨some ("1000"), some ("bytes"), true, []⟩ 0).1 := by
  decide

/-- C5 (amended): download_to performs no worker-count validation.  With
worker_count = 0 it can never succeed; when the content-length probe and the
range-support probe both succeed, the chunk-size division total_size / 0 IS
evaluated — a Rust u64 division by zero, a panic — and only after the two
HEAD network calls, not before any network call. -/
theorem zero_workers_panics (env : Env) (raw : String) (n : ℕ)
    (h1 : env.contentLength = some raw) (h2 : parse_u64 raw = some n)
    (h3 : is_accept_ranges env.acceptRanges = true) :
    download_to env 0 =
      ([Event.headRequest, Event.progressSetup, Event.headRequest,
        Event.panic ("attempt to divide by zero")],
        Outcome.panicked ("attempt to divide by zero")) ∧
    (download_to env 0).2 ≠ Outcome.success := by
  have hmain : download_to env 0 =
      ([Event.headRequest, Event.progressSetup, Event.headRequest,
        Event.panic ("attempt to divide by zero")],
        Outcome.panicked ("attempt to divide by zero")) := by
    simp [download_to, h1, h2, h3]
  refine ⟨hmain, ?_⟩
  rw [hmain]
  simp

/-- Witness for zero_workers_panics with a 10-byte resource and a range-capable
server. -/
theorem zero_workers_panics_witness :
    download_to ⟨some ("10"), some ("bytes"), true, []⟩ 0 =
      ([Event.headRequest, Event.progressSetup, Event.headRequest,
        Event.panic ("attempt to divide by zero")],
        Outcome.panicked ("attempt to divide by zero")) ∧
    (download_to ⟨some ("10"), some ("bytes"), true, []⟩ 0).2 ≠ Outcome.success :=
  zero_workers_panics ⟨some ("10"), some ("bytes"), true, []⟩ ("10") 10 rfl (by decide) (by decide)

/-- C8: whenever the content-length probe has succeeded and the range-support
probe reports no byte-range support, download_to returns the descriptive
range-unsupported error and its trace ends at the second HEAD: no segment
fetch is attempted, no file is created, and no single-stream fallback happens. -/
theorem ranges_unsupported (env : Env) (threads : ℕ) (raw : String) (n : ℕ)
    (h1 : env.contentLength = some raw) (h2 : parse_u64 raw = some n)
    (h3 : is_accept_ranges env.acceptRanges = false) :
    download_to env threads =
      ([Event.headRequest, Event.progressSetup, Event.headRequest],
        Outcome.failure ("Server does not support RANGE header")) ∧
    (∀ s e, Event.segmentRequest s e ∉ (download_to env threads).1) ∧
    Event.fileCreate ∉ (download_to env threads).1 := by
  have hmain : download_to env threads =
      ([Event.headRequest, Event.progressSetup, Event.headRequest],
        Outcome.failure ("Server does not support RANGE header")) := by
    simp [download_to, h1, h2, h3]
  refine ⟨hmain, ?_, ?_⟩
  · intro s e
    rw [hmain]
    simp
  · rw [hmain]
    simp

/-- Witness for ranges_unsupported: a 10-byte resource whose HEAD response has
no Accept-Ranges header. -/
theorem ranges_unsupported_witness :
    download_to ⟨some ("10"), none, true, []⟩ 4 =
      ([Event.headRequest, Event.progressSetup, Event.headRequest],
        Outcome.failure ("Server does not support RANGE header")) ∧
    Event.fileCreate ∉ (download_to ⟨some ("10"), none, true, []⟩ 4).1 := by
  have h := ranges_unsupported ⟨some ("10"), none, true, []⟩ 4 ("10") 10 rfl (by decide) rfl
  exact ⟨h.1, h.2.2⟩

/-- C9 counterexample: not every completion of download_to finalizes the
indicator.  On the range-unsupported error return — the progress bar has
already been created and configured at this point — the function returns via
an early return and progress.finish_and_clear, the only call that brings the
indicator to a terminal state and releases its display, is never executed. -/
theorem progress_not_finalized_counterexample :
    (download_to ⟨some ("1000"), none, true, []⟩ 4).2 =
      Outcome.failure ("Server does not support RANGE header") ∧
    Event.progressSetup ∈ (download_to ⟨some ("1000"), none, true, []⟩ 4).1 ∧
    Event.progressFinishAndClear ∉ (download_to ⟨some ("1000"), none, true, []⟩ 4).1 := by
  exact ⟨by decide, by decide, by decide⟩

/-- C9 (amended): the progress indicator is explicitly finalized only on
success: progress.finish_and_clear appears in the trace of download_to if and
only if the run returns success.  Every error return (probe failure, range
support missing, file-creation failure, JoinError propagation from a panicked
task) and the worker_count = 0 panic skip the terminal finish_and_clear call;
inner segment failures, being swallowed into a success, do reach it. -/
theorem progress_finalized_iff_success (env : Env) (threads : ℕ) :
    Event.progressFinishAndClear ∈ (download_to env threads).1 ↔
      (download_to env threads).2 = Outcome.success := by
  unfold download_to
  split
  · simp
  · split
    · simp
    · split
      · simp
      · split
        · simp
        · split
          · split
            · simp
            · simp
          · simp

/-- C10: on every early probe failure — Content-Length header absent,
Content-Length unparsable, or range support not advertised — download_to
returns an error and File::create is never reached: the destination file is
neither created nor truncated on these paths. -/
theorem no_file_create_on_probe_failure (env : Env) (threads : ℕ)
    (h : env.contentLength = none ∨
      (∃ raw, env.contentLength = some raw ∧ parse_u64 raw = none) ∨
      is_accept_ranges env.acceptRanges = false) :
    Event.fileCreate ∉ (download_to env threads).1 ∧
    ∃ msg, (download_to env threads).2 = Outcome.failure msg := by
  rcases h with h1 | ⟨raw, h1, h2⟩ | h3
  · simp [download_to, h1]
  · simp [download_to, h1, h2]
  · cases h1 : env.contentLength with
    | none => simp [download_to, h1]
    | some raw =>
      cases h2 : parse_u64 raw with
      | none => simp [download_to, h1, h2]
      | some n => simp [download_to, h1, h2, h3]

/-- Witness for no_file_create_on_probe_failure with a HEAD response carrying
no Content-Length header. -/
theorem no_file_create_on_probe_failure_witness :
    Event.fileCreate ∉ (download_to ⟨none, none, true, []⟩ 4).1 ∧
    ∃ msg, (download_to ⟨none, none, true, []⟩ 4).2 = Outcome.failure msg :=
  no_file_create_on_probe_failure ⟨none, none, true, []⟩ 4 (Or.inl rfl)

end KinopubDownloader
